import Mathlib

/-!
Shallow embedding of the Soul Protocol Python client SDK
(`src/python/soul_protocol/client.py`).

The client is a thin wrapper around HTTP: each operation builds one request,
performs it through the `requests` library, and post-processes the response.
We model the network as an oracle `Transport : HttpRequest → TransportResult`
supplied to each operation, JSON values as an inductive `JValue`, and the
Python exceptions that can escape an operation as the inductive `PyExc`.
-/

set_option autoImplicit false

/-- A JSON value, as produced by `response.json()` and as placed into request
payloads.  Objects are ordered key/value lists, mirroring Python dict
insertion order. -/
inductive JValue where
  | null
  | bool (b : Bool)
  | num (n : Int)
  | str (s : String)
  | arr (xs : List JValue)
  | obj (fields : List (String × JValue))

/-- First-match association-list lookup, the semantics of indexing a Python
dict whose keys are unique. -/
def lookupField : List (String × JValue) → String → Option JValue
  | [], _ => none
  | (k, v) :: rest, key => if k = key then some v else lookupField rest key

/-- The Python exceptions (and exception families) that client operations can
raise.  `httpError` is `requests.HTTPError` as raised by
`Response.raise_for_status`, carrying the response status code and body text;
`netError` covers `requests.ConnectionError` / `requests.Timeout`
(connection refused, DNS failure, timeout), which are not `HTTPError`;
`jsonError` is a failure of `response.json()`; `keyError`, `typeError` and
`attrError` are `KeyError` / `TypeError` / `AttributeError` from indexing the
decoded JSON. -/
inductive PyExc where
  | httpError (status : Nat) (body : String)
  | netError (kind : String)
  | jsonError
  | keyError (k : String)
  | typeError
  | attrError

/-- Python `d[k]` on a decoded JSON value: a `KeyError` when the key is
missing from an object, a `TypeError` when the value is not an object. -/
def JValue.index (j : JValue) (k : String) : Except PyExc JValue :=
  match j with
  | .obj fields =>
    match lookupField fields k with
    | some v => .ok v
    | none => .error (.keyError k)
  | _ => .error .typeError

/-- Python `d.get(k)` on a decoded JSON value: `None` when the key is missing,
an `AttributeError` when the value is not a dict. -/
def JValue.pyGet (j : JValue) (k : String) : Except PyExc (Option JValue) :=
  match j with
  | .obj fields => .ok (lookupField fields k)
  | _ => .error .attrError

/-- Discriminator: is this exception the protocol-level (non-2xx) kind? -/
def PyExc.isHttpError : PyExc → Bool
  | .httpError _ _ => true
  | _ => false

/-- Discriminator: is this exception the network-level (transport) kind? -/
def PyExc.isNetError : PyExc → Bool
  | .netError _ => true
  | _ => false

/-- An outgoing HTTP request as assembled by `requests.get` / `requests.post`
in `SoulClient._get` / `SoulClient._post`: method, full URL, optional query
parameters, optional JSON payload, extra headers, and the timeout. -/
structure HttpRequest where
  method : String
  url : String
  params : Option (List (String × String))
  payload : Option (List (String × JValue))
  headers : List (String × String)
  timeout : Int

/-- An HTTP response delivered by the transport: status code, raw body text,
and the result of JSON-decoding the body (`none` when the body is not valid
JSON, in which case `response.json()` raises). -/
structure HttpResponse where
  status : Nat
  text : String
  jsonBody : Option JValue

/-- Outcome of handing a request to the `requests` library: either a response
arrived, or a network-level failure (`ConnectionError`, `Timeout`, DNS)
occurred. -/
inductive TransportResult where
  | ok (resp : HttpResponse)
  | netFail (kind : String)

/-- The network, as an oracle from requests to transport outcomes. -/
abbrev Transport := HttpRequest → TransportResult

/-- `Response.raise_for_status` from the `requests` library: raises
`HTTPError` exactly when the status code is in 400..599. -/
def raiseForStatus (r : HttpResponse) : Except PyExc Unit :=
  if 400 ≤ r.status ∧ r.status < 600 then .error (.httpError r.status r.text)
  else .ok ()

/-- `response.json()`: the decoded body, or a decode failure. -/
def responseJson (r : HttpResponse) : Except PyExc JValue :=
  match r.jsonBody with
  | some j => .ok j
  | none => .error .jsonError

/-- Python `str.rstrip("/")`: remove every trailing `/`. -/
def rstripSlash (s : String) : String :=
  ⟨(s.data.reverse.dropWhile (fun c => c = '/')).reverse⟩

/-- Hexadecimal digit (uppercase), as used by `urllib.parse.quote`. -/
def hexDigit (n : Nat) : Char :=
  if n < 10 then Char.ofNat (48 + n) else Char.ofNat (55 + n)

/-- Is this byte in `urllib.parse.quote`'s always-safe set
(ASCII letters, digits, `_`, `.`, `-`, `~`)?  With `safe=''` no other byte
escapes percent-encoding. -/
def quoteSafeByte (b : Nat) : Bool :=
  (65 ≤ b ∧ b ≤ 90) ∨ (97 ≤ b ∧ b ≤ 122) ∨ (48 ≤ b ∧ b ≤ 57) ∨
    b = 95 ∨ b = 46 ∨ b = 45 ∨ b = 126

/-- Percent-encoding of one byte by `urllib.parse.quote(·, safe='')`: safe
bytes pass through, every other byte becomes `%XX`. -/
def quoteByteChars (b : Nat) : List Char :=
  if quoteSafeByte b then [Char.ofNat b]
  else ['%', hexDigit (b / 16), hexDigit (b % 16)]

/-- UTF-8 encoding of one character, byte values as naturals; `quote` encodes
its input to UTF-8 before percent-encoding. -/
def utf8Bytes (c : Char) : List Nat :=
  let n := c.toNat
  if n < 128 then [n]
  else if n < 2048 then [192 + n / 64, 128 + n % 64]
  else if n < 65536 then [224 + n / 4096, 128 + (n / 64) % 64, 128 + n % 64]
  else [240 + n / 262144, 128 + (n / 4096) % 64, 128 + (n / 64) % 64, 128 + n % 64]

/-- `urllib.parse.quote(s, safe='')`: percent-encode every non-always-safe
byte of the UTF-8 encoding of `s`. -/
def pyQuote (s : String) : String :=
  ⟨s.data.flatMap (fun c => (utf8Bytes c).flatMap quoteByteChars)⟩

/-- Split a URL at its `"://"`, yielding the scheme and what follows; `none`
when no `"://"` occurs.  This captures how `urllib.parse.urlparse` splits the
hierarchical absolute URLs this client is configured with. -/
def findSchemeSplit : List Char → Option (List Char × List Char)
  | [] => none
  | c :: rest =>
    if c = ':' ∧ rest.take 2 = ['/', '/'] then some ([], rest.drop 2)
    else (findSchemeSplit rest).map (fun p => (c :: p.1, p.2))

/-- A character that ends the authority (netloc) component of a URL. -/
def notDelim (c : Char) : Bool :=
  ¬ (c = '/' ∨ c = '?' ∨ c = '#')

/-- Python `path.split('/')` on a character list: always at least one
segment, the empty string splitting to one empty segment. -/
def splitOnSlash : List Char → List (List Char)
  | [] => [[]]
  | c :: rest =>
    if c = '/' then [] :: splitOnSlash rest
    else
      match splitOnSlash rest with
      | [] => [[c]]
      | seg :: segs => (c :: seg) :: segs

/-- Python `'/'.join(...)` on character-list segments. -/
def joinSlash : List (List Char) → List Char
  | [] => []
  | [seg] => seg
  | seg :: segs => seg ++ '/' :: joinSlash segs

/-- Dot-segment resolution performed by `urllib.parse.urljoin` on the
reference path: split on `/`, pop a segment for `..`, skip `.`, append a
trailing empty segment when the last segment was a dot, and re-join (an
empty join yielding the root).  Mirrors the segment loop of
`urllib/parse.py`. -/
def joinPath (path : String) : String :=
  let segments := splitOnSlash path.data
  let resolved := segments.foldl
    (fun acc seg =>
      if seg = ['.', '.'] then acc.dropLast
      else if seg = ['.'] then acc
      else acc ++ [seg]) []
  let resolved :=
    if segments.getLast? = some ['.', '.'] ∨ segments.getLast? = some ['.'] then
      resolved ++ [[]]
    else resolved
  let joined := joinSlash resolved
  if joined = [] then "/" else ⟨joined⟩

/-- The path component of the joined URL: dot-segments resolved, and a
leading `/` restored when resolution consumed it (`urlunsplit` prepends `/`
to a relative path whenever a netloc is present). -/
def resolvedPath (p : String) : String :=
  let jp := joinPath p
  if jp.data.head? = some '/' then jp else "/" ++ jp

/-- The schemes of `urllib.parse.uses_relative`: only for these does
`urljoin` merge the reference into the base. -/
def usesRelative : List String :=
  ["", "ftp", "http", "gopher", "nntp", "imap", "wais", "file", "https",
   "shttp", "mms", "prospero", "rtsp", "rtspu", "sftp", "svn", "svn+ssh",
   "ws", "wss"]

/-- Model of `urllib.parse.urljoin(base, p)` restricted to the calls this
client makes: every path `p` the client passes begins with a single `/` (an
absolute-path reference, never netloc-relative `//`), for which `urljoin`
keeps the base's scheme and authority and replaces its path, query and
fragment with the dot-resolved reference path.  A base without `"://"`
parses with an empty netloc, and the result is the reference path alone;
a base whose scheme is outside `uses_relative` returns the reference
unchanged. -/
def urljoin (base p : String) : String :=
  match findSchemeSplit base.data with
  | some (scheme, rest) =>
    if (⟨scheme⟩ : String) ∈ usesRelative then
      ⟨scheme⟩ ++ "://" ++ (⟨rest.takeWhile notDelim⟩ : String) ++ resolvedPath p
    else p
  | none => resolvedPath p

/-- The client's configuration record: `registry_url` and `timeout` are the
only attributes `SoulClient.__init__` sets, and no method assigns any
attribute afterwards. -/
structure SoulClient where
  registry_url : String
  timeout : Int

/-- `SoulClient.__init__`: store the registry URL with trailing slashes
stripped, and the timeout. -/
def SoulClient.init (registry_url : String) (timeout : Int) : SoulClient :=
  { registry_url := rstripSlash registry_url, timeout := timeout }

/-- The request issued by `SoulClient._get`:
`requests.get(urljoin(self.registry_url, path), params=params, timeout=self.timeout)`. -/
def SoulClient.getRequest (c : SoulClient) (path : String)
    (params : Option (List (String × String))) : HttpRequest :=
  { method := "GET", url := urljoin c.registry_url path, params := params,
    payload := none, headers := [], timeout := c.timeout }

/-- The request issued by `SoulClient._post`:
`requests.post(urljoin(self.registry_url, path), json=payload,
headers={"Content-Type": "application/json"}, timeout=self.timeout)`. -/
def SoulClient.postRequest (c : SoulClient) (path : String)
    (payload : List (String × JValue)) : HttpRequest :=
  { method := "POST", url := urljoin c.registry_url path, params := none,
    payload := some payload,
    headers := [("Content-Type", "application/json")], timeout := c.timeout }

/-- `SoulClient._get`: perform the GET, raise on network failure, then
`raise_for_status`, then decode JSON. -/
def SoulClient._get (c : SoulClient) (tr : Transport) (path : String)
    (params : Option (List (String × String))) : Except PyExc JValue :=
  match tr (c.getRequest path params) with
  | .netFail k => .error (.netError k)
  | .ok r => do
    raiseForStatus r
    responseJson r

/-- `SoulClient._post`: perform the POST, raise on network failure, then
`raise_for_status`, then decode JSON. -/
def SoulClient._post (c : SoulClient) (tr : Transport) (path : String)
    (payload : List (String × JValue)) : Except PyExc JValue :=
  match tr (c.postRequest path payload) with
  | .netFail k => .error (.netError k)
  | .ok r => do
    raiseForStatus r
    responseJson r

/-- The result record returned by `register`; the fields hold whatever JSON
values the response carried (the annotations in the source are not
enforced at runtime). -/
structure RegisterResult where
  did : JValue
  claim_url : JValue
  verification_code : JValue
  private_key : Option JValue

/-- The result record returned by `verify`. -/
structure VerifyResult where
  valid : JValue
  checks : JValue

/-- A payload entry conditionally added by `if v: payload[k] = v`: Python
truthiness keeps the key out for `None` and for the empty string. -/
def optStrField (k : String) : Option String → List (String × JValue)
  | none => []
  | some s => if s = "" then [] else [(k, .str s)]

/-- The body built by `register`: the three required fields in insertion
order, then the optional fields that are present and truthy. -/
def registerPayload (name base_model platform : String)
    (public_key charter_hash purpose : Option String) :
    List (String × JValue) :=
  [("name", .str name), ("baseModel", .str base_model),
   ("platform", .str platform)]
  ++ optStrField "publicKey" public_key
  ++ optStrField "charterHash" charter_hash
  ++ optStrField "purpose" purpose

/-- `SoulClient.register`: POST the payload to `/v1/souls/register` and
project the response fields into a `RegisterResult`. -/
def SoulClient.register (c : SoulClient) (tr : Transport)
    (name base_model platform : String)
    (public_key charter_hash purpose : Option String) :
    Except PyExc RegisterResult := do
  let response ← c._post tr "/v1/souls/register"
    (registerPayload name base_model platform public_key charter_hash purpose)
  let soul ← response.index "soul"
  let did ← soul.index "did"
  let claimUrl ← soul.index "claimUrl"
  let verificationCode ← soul.index "verificationCode"
  let privateKey ← response.pyGet "privateKey"
  return { did := did, claim_url := claimUrl,
           verification_code := verificationCode, private_key := privateKey }

/-- `SoulClient.resolve`: GET `/v1/souls/{quote(did, safe='')}`; an
`HTTPError` with status 404 becomes a successful `none`, every other
exception re-raises. -/
def SoulClient.resolve (c : SoulClient) (tr : Transport) (did : String) :
    Except PyExc (Option JValue) :=
  match c._get tr ("/v1/souls/" ++ pyQuote did) none with
  | .ok j => .ok (some j)
  | .error (.httpError status body) =>
    if status = 404 then .ok none else .error (.httpError status body)
  | .error e => .error e

/-- The body built by `claim`: the required `did`, then `operatorDid` when
present and truthy. -/
def claimPayload (did : String) (operator_did : Option String) :
    List (String × JValue) :=
  [("did", .str did)] ++ optStrField "operatorDid" operator_did

/-- `SoulClient.claim`: POST the payload to `/v1/souls/claim` and return the
response's `soul` field. -/
def SoulClient.claim (c : SoulClient) (tr : Transport) (did : String)
    (operator_did : Option String) : Except PyExc JValue := do
  let response ← c._post tr "/v1/souls/claim" (claimPayload did operator_did)
  response.index "soul"

/-- `SoulClient.verify`: POST the credential to `/v1/verify` and project the
`valid` and `checks` fields. -/
def SoulClient.verify (c : SoulClient) (tr : Transport)
    (credential : JValue) : Except PyExc VerifyResult := do
  let response ← c._post tr "/v1/verify" [("credential", credential)]
  let valid ← response.index "valid"
  let checks ← response.index "checks"
  return { valid := valid, checks := checks }

/-- The query parameters built by `list`: `limit` and `offset` rendered with
`str(...)` unconditionally, then `status` when present and truthy. -/
def listParams (status : Option String) (limit offset : Int) :
    List (String × String) :=
  [("limit", toString limit), ("offset", toString offset)]
  ++ (match status with
      | none => []
      | some s => if s = "" then [] else [("status", s)])

/-- `SoulClient.list`: GET `/v1/souls` with the pagination parameters. -/
def SoulClient.list (c : SoulClient) (tr : Transport) (status : Option String)
    (limit offset : Int) : Except PyExc JValue :=
  c._get tr "/v1/souls" (some (listParams status limit offset))

/-- `SoulClient.stats`: GET `/` and return the response's `stats` field. -/
def SoulClient.stats (c : SoulClient) (tr : Transport) :
    Except PyExc JValue := do
  let response ← c._get tr "/" none
  response.index "stats"

/-- One invocation of a client operation, with its arguments. -/
inductive Operation where
  | register (name base_model platform : String)
      (public_key charter_hash purpose : Option String)
  | resolve (did : String)
  | claim (did : String) (operator_did : Option String)
  | verify (credential : JValue)
  | list (status : Option String) (limit offset : Int)
  | stats

/-- The result of one client operation, tagged by operation. -/
inductive OpResult where
  | registered (r : Except PyExc RegisterResult)
  | resolved (r : Except PyExc (Option JValue))
  | claimed (r : Except PyExc JValue)
  | verified (r : Except PyExc VerifyResult)
  | listed (r : Except PyExc JValue)
  | statted (r : Except PyExc JValue)

/-- A client method viewed as a state transformer on the client record: no
method of the source assigns any attribute of `self`, so each dispatches to
the corresponding operation and returns the client record it was invoked
on. -/
def SoulClient.runOp (c : SoulClient) (tr : Transport) :
    Operation → OpResult × SoulClient
  | .register n b p pk ch pu => (.registered (c.register tr n b p pk ch pu), c)
  | .resolve did => (.resolved (c.resolve tr did), c)
  | .claim did od => (.claimed (c.claim tr did od), c)
  | .verify cred => (.verified (c.verify tr cred), c)
  | .list st l o => (.listed (c.list tr st l o), c)
  | .stats => (.statted (c.stats tr), c)

/-! ### Helper lemmas -/

theorem okBind {α β : Type} (a : α) (f : α → Except PyExc β) :
    (Except.ok a >>= f) = f a := rfl

theorem get_const_err (c : SoulClient) (r : HttpResponse) (path : String)
    (params : Option (List (String × String)))
    (h4 : 400 ≤ r.status) (h6 : r.status < 600) :
    c._get (fun _ => .ok r) path params =
      .error (.httpError r.status r.text) := by
  show (do raiseForStatus r; responseJson r) = _
  unfold raiseForStatus
  rw [if_pos (And.intro h4 h6)]
  rfl

theorem post_const_err (c : SoulClient) (r : HttpResponse) (path : String)
    (payload : List (String × JValue))
    (h4 : 400 ≤ r.status) (h6 : r.status < 600) :
    c._post (fun _ => .ok r) path payload =
      .error (.httpError r.status r.text) := by
  show (do raiseForStatus r; responseJson r) = _
  unfold raiseForStatus
  rw [if_pos (And.intro h4 h6)]
  rfl

theorem get_const_ok (c : SoulClient) (r : HttpResponse) (body : JValue)
    (path : String) (params : Option (List (String × String)))
    (hst : ¬ (400 ≤ r.status ∧ r.status < 600))
    (hb : r.jsonBody = some body) :
    c._get (fun _ => .ok r) path params = .ok body := by
  show (do raiseForStatus r; responseJson r) = _
  unfold raiseForStatus
  rw [if_neg hst]
  show responseJson r = _
  unfold responseJson
  rw [hb]

theorem post_const_ok (c : SoulClient) (r : HttpResponse) (body : JValue)
    (path : String) (payload : List (String × JValue))
    (hst : ¬ (400 ≤ r.status ∧ r.status < 600))
    (hb : r.jsonBody = some body) :
    c._post (fun _ => .ok r) path payload = .ok body := by
  show (do raiseForStatus r; responseJson r) = _
  unfold raiseForStatus
  rw [if_neg hst]
  show responseJson r = _
  unfold responseJson
  rw [hb]

/-! ### Claims -/

/-- C1: for every DID string, when the registry's response to the resolve
request has status 404, `resolve` returns the successful "not found" result
`none`, raising no error. -/
theorem resolve_404_returns_none (c : SoulClient) (tr : Transport)
    (did : String) (r : HttpResponse)
    (htr : tr (c.getRequest ("/v1/souls/" ++ pyQuote did) none) = .ok r)
    (h404 : r.status = 404) :
    c.resolve tr did = .ok none := by
  have hget : c._get tr ("/v1/souls/" ++ pyQuote did) none =
      .error (.httpError 404 r.text) := by
    unfold SoulClient._get
    rw [htr]
    show (do raiseForStatus r; responseJson r) = _
    unfold raiseForStatus
    rw [h404, if_pos (by omega : 400 ≤ 404 ∧ 404 < 600)]
    rfl
  unfold SoulClient.resolve
  rw [hget]
  rfl

/-- C1 witness: a concrete client, transport and DID exercising the 404
case. -/
theorem resolve_404_returns_none_witness :
    (SoulClient.init "https://registry.soulprotocol.dev" 30).resolve
      (fun _ => .ok { status := 404, text := "not found", jsonBody := none })
      "did:soul:absent" = .ok none :=
  resolve_404_returns_none _ _ _
    { status := 404, text := "not found", jsonBody := none } rfl rfl

/-- C3: under a network-level failure every operation surfaces the
transport-error kind, which is distinct from the protocol-level
(non-2xx) `httpError` kind; in particular `resolve` propagates the
transport error rather than returning the "not found" result. -/
theorem transport_failure_distinct (c : SoulClient) (k : String)
    (n b p : String) (pk ch pu : Option String) (did did2 : String)
    (od : Option String) (cred : JValue) (st : Option String) (l o : Int) :
    c.register (fun _ => .netFail k) n b p pk ch pu =
      .error (.netError k) ∧
    c.resolve (fun _ => .netFail k) did = .error (.netError k) ∧
    c.claim (fun _ => .netFail k) did2 od = .error (.netError k) ∧
    c.verify (fun _ => .netFail k) cred = .error (.netError k) ∧
    c.list (fun _ => .netFail k) st l o = .error (.netError k) ∧
    c.stats (fun _ => .netFail k) = .error (.netError k) ∧
    (PyExc.netError k).isNetError = true ∧
    (PyExc.netError k).isHttpError = false ∧
    (PyExc.httpError 404 "not found").isNetError = false :=
  ⟨rfl, rfl, rfl, rfl, rfl, rfl, rfl, rfl, rfl⟩

/-- C4: when the optional inputs of `register` and `claim` are not supplied,
the corresponding keys are entirely absent from the outgoing payloads: the
key lists are exactly the required fields, so no omitted key appears, with a
null value or otherwise. -/
theorem omitted_optionals_absent (n b p did : String) :
    (registerPayload n b p none none none).map Prod.fst =
      ["name", "baseModel", "platform"] ∧
    (claimPayload did none).map Prod.fst = ["did"] :=
  ⟨rfl, rfl⟩

/-- C8: every operation returns the client record it was invoked on: the
configuration fields (registry base address and timeout) after any
operation, succeeding or failing, equal those before it. -/
theorem operations_preserve_client (c : SoulClient) (tr : Transport)
    (op : Operation) :
    (c.runOp tr op).2 = c ∧
    ((c.runOp tr op).2).registry_url = c.registry_url ∧
    ((c.runOp tr op).2).timeout = c.timeout := by
  cases op <;> exact ⟨rfl, rfl, rfl⟩

/-- C9: an optional string input supplied as the empty string is treated
exactly like an absent input: the corresponding key is omitted from the
payload or query parameters, because presence is decided by Python
truthiness. -/
theorem empty_string_like_absent (n b p did : String) (l o : Int) :
    registerPayload n b p (some "") (some "") (some "") =
      registerPayload n b p none none none ∧
    claimPayload did (some "") = claimPayload did none ∧
    listParams (some "") l o = listParams none l o :=
  ⟨rfl, rfl, rfl⟩

/-- C2 counterexample: a response with the non-2xx status 300 whose body is
valid JSON makes `claim` return a success, not a typed registry error —
`raise_for_status` raises only for statuses in 400..599, so a non-2xx,
non-4xx/5xx response is swallowed. -/
theorem non2xx_not_always_error :
    (SoulClient.init "https://registry.soulprotocol.dev" 30).claim
      (fun _ => .ok { status := 300, text := "multiple choices",
                      jsonBody := some (.obj [("soul", .str "s")]) })
      "did:soul:x" none = .ok (.str "s") ∧
    ¬ (200 ≤ 300 ∧ 300 ≤ 299) :=
  ⟨rfl, by omega⟩

/-- C2 amended: for every operation and every response with a status in
400..599 — the statuses `raise_for_status` raises for — except the 404 case
of `resolve`, the operation fails with the typed registry error carrying the
response's status code and body unchanged; in particular `claim` on an
already-claimed DID surfaces that error, and no operation returns a value in
its place. -/
theorem registry_error_propagates (c : SoulClient) (r : HttpResponse)
    (n b p : String) (pk ch pu : Option String) (did did2 : String)
    (od : Option String) (cred : JValue) (st : Option String) (l o : Int)
    (h4 : 400 ≤ r.status) (h6 : r.status < 600) :
    (r.status ≠ 404 →
      c.resolve (fun _ => .ok r) did = .error (.httpError r.status r.text)) ∧
    c.register (fun _ => .ok r) n b p pk ch pu =
      .error (.httpError r.status r.text) ∧
    c.claim (fun _ => .ok r) did2 od = .error (.httpError r.status r.text) ∧
    c.verify (fun _ => .ok r) cred = .error (.httpError r.status r.text) ∧
    c.list (fun _ => .ok r) st l o = .error (.httpError r.status r.text) ∧
    c.stats (fun _ => .ok r) = .error (.httpError r.status r.text) := by
  refine ⟨?_, ?_, ?_, ?_, ?_, ?_⟩
  · intro hne
    unfold SoulClient.resolve
    rw [get_const_err c r _ _ h4 h6]
    show (if r.status = 404 then (Except.ok none : Except PyExc (Option JValue))
      else .error (.httpError r.status r.text)) = _
    rw [if_neg hne]
  · unfold SoulClient.register
    rw [post_const_err c r _ _ h4 h6]
    rfl
  · unfold SoulClient.claim
    rw [post_const_err c r _ _ h4 h6]
    rfl
  · unfold SoulClient.verify
    rw [post_const_err c r _ _ h4 h6]
    rfl
  · unfold SoulClient.list
    rw [get_const_err c r _ _ h4 h6]
  · unfold SoulClient.stats
    rw [get_const_err c r _ _ h4 h6]
    rfl

/-- C2 witness: `claim` on an already-claimed DID, with the registry
answering 409, surfaces the registry error with that status and body. -/
theorem registry_error_propagates_witness :
    (SoulClient.init "https://registry.soulprotocol.dev" 30).claim
      (fun _ => .ok { status := 409, text := "already claimed",
                      jsonBody := none })
      "did:soul:taken" none = .error (.httpError 409 "already claimed") :=
  (registry_error_propagates
    (SoulClient.init "https://registry.soulprotocol.dev" 30)
    { status := 409, text := "already claimed", jsonBody := none }
    "" "" "" none none none "" "did:soul:taken" none .null none 100 0
    (by decide) (by decide)).2.2.1

/-- A registry response whose `soul.did` is the empty string, used to probe
`register`'s absence of response validation. -/
def respEmptyDid : HttpResponse :=
  { status := 200, text := "ok",
    jsonBody := some (.obj [("soul",
      .obj [("did", .str ""), ("claimUrl", .str "u"),
            ("verificationCode", .str "v")])]) }

/-- The `soul` object of a well-formed registry response whose DID is
non-empty and embedded in the claim URL. -/
def soulObjW1 : JValue :=
  .obj [("did", .str "did:soul:w1"),
        ("claimUrl", .str "https://r.example/claim/did:soul:w1"),
        ("verificationCode", .str "v")]

/-- A well-formed registry response wrapping `soulObjW1`. -/
def respW1 : HttpResponse :=
  { status := 200, text := "ok", jsonBody := some (.obj [("soul", soulObjW1)]) }

/-- C6 counterexample: `register` performs no validation of the response, so
a registry response carrying an empty `did` is returned as a successful
result whose DID is the empty string and is not embedded in the claim
URL. -/
theorem register_no_validation :
    (SoulClient.init "https://registry.soulprotocol.dev" 30).register
      (fun _ => .ok respEmptyDid) "aname" "amodel" "aplatform"
      none none none =
    .ok { did := .str "", claim_url := .str "u",
          verification_code := .str "v", private_key := none } :=
  rfl

/-- C6 amended: `register` copies the response's `soul.did` and
`soul.claimUrl` into the result unchanged, so whenever the registry's
response carries a non-empty DID string embedded in its claim URL (as the
registry contract promises for valid inputs), the returned result's DID is
that non-empty string and the returned claim URL contains it as a
substring. -/
theorem register_result_embeds_did (c : SoulClient) (r : HttpResponse)
    (body soul code : JValue) (pkv : Option JValue)
    (n b p : String) (pk ch pu : Option String) (d u : String)
    (hst : ¬ (400 ≤ r.status ∧ r.status < 600))
    (hb : r.jsonBody = some body)
    (hsoul : body.index "soul" = .ok soul)
    (hdid : soul.index "did" = .ok (.str d))
    (hurl : soul.index "claimUrl" = .ok (.str u))
    (hcode : soul.index "verificationCode" = .ok code)
    (hpk : body.pyGet "privateKey" = .ok pkv)
    (hne : d ≠ "")
    (hsub : d.data <:+: u.data) :
    c.register (fun _ => .ok r) n b p pk ch pu =
      .ok { did := .str d, claim_url := .str u,
            verification_code := code, private_key := pkv } ∧
    d ≠ "" ∧ d.data <:+: u.data := by
  refine ⟨?_, hne, hsub⟩
  unfold SoulClient.register
  rw [post_const_ok c r body _ _ hst hb, okBind, hsoul, okBind, hdid, okBind,
    hurl, okBind, hcode, okBind, hpk, okBind]
  rfl

/-- C6 witness: a well-formed registry response whose DID is non-empty and
embedded in the claim URL yields a result with those properties. -/
theorem register_result_embeds_did_witness :
    (SoulClient.init "https://registry.soulprotocol.dev" 30).register
      (fun _ => .ok respW1) "aname" "amodel" "aplatform" none none none =
      .ok { did := .str "did:soul:w1",
            claim_url := .str "https://r.example/claim/did:soul:w1",
            verification_code := .str "v", private_key := none } ∧
    "did:soul:w1" ≠ "" ∧
    "did:soul:w1".data <:+: "https://r.example/claim/did:soul:w1".data :=
  ⟨(register_result_embeds_did
      (SoulClient.init "https://registry.soulprotocol.dev" 30)
      respW1 (.obj [("soul", soulObjW1)]) soulObjW1 (.str "v") none
      "aname" "amodel" "aplatform" none none none
      "did:soul:w1" "https://r.example/claim/did:soul:w1"
      (by decide) rfl rfl rfl rfl rfl rfl (by decide) (by decide)).1,
   by decide, by decide⟩

set_option maxRecDepth 4000 in
/-- Every byte below 256 percent-encodes to characters none of which is a
colon: safe bytes are letters, digits or `_ . - ~`, and escapes use `%` and
hexadecimal digits only. -/
theorem quoteByteChars_ne_colon :
    ∀ b : Nat, b < 256 → (quoteByteChars b).all (fun ch => ch != ':') = true := by
  decide

/-- UTF-8 encoding produces bytes below 256. -/
theorem utf8Bytes_lt (c : Char) : ∀ b ∈ utf8Bytes c, b < 256 := by
  have hval : c.toNat < 1114112 := by
    rcases c.valid with h | ⟨h1, h2⟩ <;> simp [Char.toNat] <;> omega
  intro b hb
  unfold utf8Bytes at hb
  dsimp only at hb
  split_ifs at hb <;> simp at hb <;> omega

/-- C5: the DID placed in the request path by `resolve` is percent-encoded:
no character of `quote(did, safe='')` is a literal `:`, and hence the whole
path segment `/v1/souls/{quoted did}` contains no literal `:`. -/
theorem resolve_did_percent_encoded (did : String) :
    (pyQuote did).data.all (fun ch => ch != ':') = true ∧
    ("/v1/souls/" ++ pyQuote did).data.all (fun ch => ch != ':') = true := by
  have hq : ∀ x ∈ (pyQuote did).data, (x != ':') = true := by
    intro x hx
    have hx' : x ∈ did.data.flatMap
        (fun c => (utf8Bytes c).flatMap quoteByteChars) := hx
    rcases List.mem_flatMap.mp hx' with ⟨c, _, hx2⟩
    rcases List.mem_flatMap.mp hx2 with ⟨b, hb, hx3⟩
    exact List.all_eq_true.mp (quoteByteChars_ne_colon b (utf8Bytes_lt c b hb))
      x hx3
  refine ⟨List.all_eq_true.mpr hq, ?_⟩
  rw [String.data_append, List.all_append]
  rw [Bool.and_eq_true]
  exact ⟨by decide, List.all_eq_true.mpr hq⟩

/-- Python truthiness of an optional string: `False` for `None` and for the
empty string. -/
def pyTruthy : Option String → Bool
  | none => false
  | some s => !(s == "")

/-- C7: `list` always sends `limit` and `offset`, rendered with `str(...)`
(decimal), and sends `status` exactly when the supplied filter is truthy —
so only when a status filter is supplied. -/
theorem list_pagination_params (c : SoulClient) (tr : Transport)
    (status : Option String) (limit offset : Int) :
    c.list tr status limit offset =
      c._get tr "/v1/souls" (some (listParams status limit offset)) ∧
    ("limit", toString limit) ∈ listParams status limit offset ∧
    ("offset", toString offset) ∈ listParams status limit offset ∧
    ((listParams status limit offset).map Prod.fst).contains "status" =
      pyTruthy status := by
  refine ⟨rfl, ?_, ?_, ?_⟩
  · simp [listParams]
  · simp [listParams]
  · rcases status with _ | s
    · simp [listParams, pyTruthy]
    · by_cases hs : s = "" <;> simp [listParams, pyTruthy, hs]

/-- String reconstruction from its character list. -/
theorem strMk_data (s : String) : (⟨s.data⟩ : String) = s := rfl

/-- takeWhile runs past a block that wholly satisfies the predicate. -/
theorem takeWhile_append_all {α : Type} (p : α → Bool) (l₁ l₂ : List α)
    (h : ∀ a ∈ l₁, p a = true) :
    (l₁ ++ l₂).takeWhile p = l₁ ++ l₂.takeWhile p := by
  induction l₁ with
  | nil => simp
  | cons x xs ih =>
    have hx := h x (by simp)
    simp [List.takeWhile_cons, hx, ih (fun a ha => h a (by simp [ha]))]

/-- takeWhile for the netloc predicate stops at a leading slash. -/
theorem takeWhile_notDelim_slash (l : List Char) (h : l.head? = some '/') :
    l.takeWhile notDelim = [] := by
  cases l with
  | nil => simp at h
  | cons c t =>
    simp at h
    subst h
    have hd : notDelim '/' = false := by decide
    simp [List.takeWhile_cons, hd]

/-- Stripping trailing slashes from an appended string whose first block does
not end in a slash strips only within the second block. -/
theorem rstripSlash_append (a b : String) (hne : a.data ≠ [])
    (hlast : ∀ ch, a.data.getLast? = some ch → ch ≠ '/') :
    rstripSlash (a ++ b) = a ++ rstripSlash b := by
  apply String.ext
  show ((a ++ b).data.reverse.dropWhile (fun c => c = '/')).reverse
      = (a ++ rstripSlash b).data
  rw [String.data_append a (rstripSlash b)]
  show _ = a.data ++ (b.data.reverse.dropWhile (fun c => c = '/')).reverse
  rw [String.data_append a b, List.reverse_append, List.dropWhile_append]
  rcases hrev : a.data.reverse with _ | ⟨c, t⟩
  · exact absurd (by simpa using hrev) hne
  · have hc : c ≠ '/' := by
      apply hlast
      rw [← List.head?_reverse, hrev]
      rfl
    have ha : a.data = (c :: t).reverse := by
      rw [← hrev, List.reverse_reverse]
    by_cases hb : (b.data.reverse.dropWhile (fun c => c = '/')).isEmpty
    · rw [if_pos hb]
      have hbe : b.data.reverse.dropWhile (fun c => c = '/') = [] :=
        List.isEmpty_iff.mp hb
      rw [List.dropWhile_cons]
      simp [hc, hbe, ha]
    · rw [if_neg hb, List.reverse_append, ha]

/-- Stripping trailing slashes either empties the string or keeps its first
character. -/
theorem rstripSlash_head (s : String) :
    rstripSlash s = "" ∨ (rstripSlash s).data.head? = s.data.head? := by
  obtain ⟨t, ht⟩ := List.dropWhile_suffix (l := s.data.reverse)
    (p := fun c => c = '/')
  have hsdata : s.data =
      (s.data.reverse.dropWhile (fun c => c = '/')).reverse ++ t.reverse := by
    have := congrArg List.reverse ht
    rw [List.reverse_append, List.reverse_reverse] at this
    exact this.symm
  rcases hd : (s.data.reverse.dropWhile (fun c => c = '/')).reverse
    with _ | ⟨c, t2⟩
  · left
    show (⟨(s.data.reverse.dropWhile (fun c => c = '/')).reverse⟩ : String) = ""
    rw [hd]
  · right
    show ((⟨(s.data.reverse.dropWhile (fun c => c = '/')).reverse⟩ : String)
      ).data.head? = s.data.head?
    rw [hd, hsdata, hd]
    rfl

/-- findSchemeSplit splits an `http://` base at its scheme. -/
theorem findSchemeSplit_http (t : List Char) :
    findSchemeSplit ('h' :: 't' :: 't' :: 'p' :: ':' :: '/' :: '/' :: t) =
      some (['h', 't', 't', 'p'], t) := rfl

/-- findSchemeSplit splits an `https://` base at its scheme. -/
theorem findSchemeSplit_https (t : List Char) :
    findSchemeSplit ('h' :: 't' :: 't' :: 'p' :: 's' :: ':' :: '/' :: '/' :: t)
      = some (['h', 't', 't', 'p', 's'], t) := rfl

/-- The resolved reference path always begins at the root. -/
theorem resolvedPath_head (p : String) :
    (resolvedPath p).data.head? = some '/' := by
  unfold resolvedPath
  dsimp only
  by_cases h : (joinPath p).data.head? = some '/'
  · rw [if_pos h]
    exact h
  · rw [if_neg h, String.data_append]
    rfl

/-- For an http(s) base of the shape `scheme://netloc[/basepath]`, joining an
absolute path keeps the scheme and authority, discards the base's path, and
installs the resolved reference path. -/
theorem urljoin_rooted (scheme netloc rest p : String)
    (hscheme : scheme = "http" ∨ scheme = "https")
    (hnet : netloc.data ≠ [])
    (hfree : ∀ ch ∈ netloc.data, notDelim ch = true)
    (hrest : rest = "" ∨ rest.data.head? = some '/') :
    urljoin (rstripSlash (scheme ++ "://" ++ netloc ++ rest)) p =
      scheme ++ "://" ++ netloc ++ resolvedPath p := by
  have hane : (scheme ++ "://" ++ netloc).data ≠ [] := by
    rw [String.data_append, String.data_append]
    intro hcontra
    rcases List.append_eq_nil.mp hcontra with ⟨h1, h2⟩
    exact hnet h2
  have halast : ∀ ch, (scheme ++ "://" ++ netloc).data.getLast? = some ch →
      ch ≠ '/' := by
    intro ch hch
    rw [String.data_append, String.data_append,
      List.getLast?_append_of_ne_nil _ hnet] at hch
    have hmem := List.mem_of_mem_getLast? hch
    have := hfree ch hmem
    simp [notDelim] at this
    exact this.1
  rw [rstripSlash_append _ rest hane halast]
  have hr' : rstripSlash rest = "" ∨
      (rstripSlash rest).data.head? = some '/' := by
    rcases hrest with h | h
    · left
      rw [h]
      rfl
    · rcases rstripSlash_head rest with h2 | h2
      · exact Or.inl h2
      · exact Or.inr (h2.trans h)
  have htake : (netloc.data ++ (rstripSlash rest).data).takeWhile notDelim =
      netloc.data := by
    rw [takeWhile_append_all notDelim _ _ hfree]
    rcases hr' with h | h
    · rw [h]
      simp
    · rw [takeWhile_notDelim_slash _ h]
      simp
  rcases hscheme with h | h
  · subst h
    have hdata : (("http" ++ "://" ++ netloc) ++ rstripSlash rest).data =
        'h' :: 't' :: 't' :: 'p' :: ':' :: '/' :: '/' ::
          (netloc.data ++ (rstripSlash rest).data) := by
      rw [String.data_append, String.data_append, String.data_append,
        List.append_assoc]
      rfl
    unfold urljoin
    rw [hdata, findSchemeSplit_http]
    show (if (⟨['h', 't', 't', 'p']⟩ : String) ∈ usesRelative then
        (⟨['h', 't', 't', 'p']⟩ : String) ++ "://" ++
          (⟨(netloc.data ++ (rstripSlash rest).data).takeWhile notDelim⟩ :
            String) ++ resolvedPath p
      else p) = _
    rw [if_pos (by decide), htake, strMk_data]
  · subst h
    have hdata : (("https" ++ "://" ++ netloc) ++ rstripSlash rest).data =
        'h' :: 't' :: 't' :: 'p' :: 's' :: ':' :: '/' :: '/' ::
          (netloc.data ++ (rstripSlash rest).data) := by
      rw [String.data_append, String.data_append, String.data_append,
        List.append_assoc]
      rfl
    unfold urljoin
    rw [hdata, findSchemeSplit_https]
    show (if (⟨['h', 't', 't', 'p', 's']⟩ : String) ∈ usesRelative then
        (⟨['h', 't', 't', 'p', 's']⟩ : String) ++ "://" ++
          (⟨(netloc.data ++ (rstripSlash rest).data).takeWhile notDelim⟩ :
            String) ++ resolvedPath p
      else p) = _
    rw [if_pos (by decide), htake, strMk_data]

/-- C10: for every configured http(s) registry base address of the shape
`scheme://netloc[/basepath...]`, the request URL of every operation joins the
base with an absolute path beginning with `/`, so the base's own path
component is discarded and requests target paths at the root of the base's
host; each operation's path begins with `/`, and in particular `stats`
requests the host root `/`. -/
theorem request_urls_rooted (scheme netloc rest p did : String) (t : Int)
    (params : Option (List (String × String)))
    (payload : List (String × JValue))
    (hscheme : scheme = "http" ∨ scheme = "https")
    (hnet : netloc.data ≠ [])
    (hfree : ∀ ch ∈ netloc.data, notDelim ch = true)
    (hrest : rest = "" ∨ rest.data.head? = some '/') :
    ((SoulClient.init (scheme ++ "://" ++ netloc ++ rest) t).getRequest
        p params).url = scheme ++ "://" ++ netloc ++ resolvedPath p ∧
    ((SoulClient.init (scheme ++ "://" ++ netloc ++ rest) t).postRequest
        p payload).url = scheme ++ "://" ++ netloc ++ resolvedPath p ∧
    (resolvedPath p).data.head? = some '/' ∧
    ((SoulClient.init (scheme ++ "://" ++ netloc ++ rest) t).getRequest
        "/" none).url = scheme ++ "://" ++ netloc ++ "/" ∧
    ("/v1/souls/register" : String).data.head? = some '/' ∧
    ("/v1/souls/" ++ pyQuote did).data.head? = some '/' ∧
    ("/v1/souls/claim" : String).data.head? = some '/' ∧
    ("/v1/verify" : String).data.head? = some '/' ∧
    ("/v1/souls" : String).data.head? = some '/' ∧
    ("/" : String).data.head? = some '/' := by
  have hjoin := urljoin_rooted scheme netloc rest
  refine ⟨hjoin p hscheme hnet hfree hrest, hjoin p hscheme hnet hfree hrest,
    resolvedPath_head p, ?_, rfl, rfl, rfl, rfl, rfl, rfl⟩
  have h4 := hjoin "/" hscheme hnet hfree hrest
  have hroot : resolvedPath "/" = "/" := by decide
  rw [hroot] at h4
  exact h4

/-- C10 witness: a base address carrying a path component, exercised on the
`list` path; the base path `/api/v2/` is discarded. -/
theorem request_urls_rooted_witness :
    ((SoulClient.init ("https" ++ "://" ++ "reg.example.com" ++ "/api/v2/")
        30).getRequest "/v1/souls" none).url =
      "https" ++ "://" ++ "reg.example.com" ++ resolvedPath "/v1/souls" :=
  (request_urls_rooted "https" "reg.example.com" "/api/v2/" "/v1/souls"
    "did:soul:x" 30 none [] (Or.inr rfl) (by decide) (by decide)
    (Or.inr (by decide))).1
